import Mathlib

set_option maxRecDepth 100000

/-
Verification of the JASN tree-walking interpreter (resolver, environment
chain, callables and evaluator) against its design description.

The embedding follows the Rust sources closely:
  token.rs        : TokenType, Token, LiteralType (runtime values)
  expressions.rs  : Expr
  statements.rs   : Stmt, Function
  environment.rs  : Environment (modelled as a heap of frames addressed by
                    index; an EnvRef is the index of its frame)
  callable.rs     : Callable and Callable::call / Callable::arity
  interpreter.rs  : the statement/expression visitors, execute_block,
                    look_up_variable, interpret
  resolver.rs     : scope stack, declare/define/resolve_local and the
                    statement/expression visitors

Numbers (f64 in the source) are modelled as rationals; the only numeric
operations the verified properties rely on are negation, comparison with
zero and the saturating truncation of the `as usize` cast, on which the
rational model agrees with f64 for all representable inputs used here.

AST variants whose visitors are unimplemented stubs in the source
(Get, Set, Super, This) and the Binary/Logical operators, which none of
the verified properties mention, are not part of the embedding; source
literals carry only the scanner-producible primitives (number, string,
bool, null).  Native functions (native_functions.rs) are likewise omitted,
so the initial global frame is empty.
-/

namespace Jasn

/-- token.rs: TokenType. -/
inductive TokenType
  | leftParen | rightParen | leftBrace | rightBrace | leftSquare | rightSquare
  | comma | dot | semicolon | modulo
  | bang | bangEqual | equal | equalEqual | greater | greaterEqual
  | less | lessEqual | plus | plusPlus | minus | minusMinus
  | plusEqual | minusEqual | slash | slashEqual | star | starEqual
  | identifier | stringTok | numberTok
  | andTok | classTok | elseTok | falseTok | funk | forTok | ifTok
  | nullTok | orTok | printTok | returnTok | superTok | thisTok
  | trueTok | varTok | whileTok
  | eof
deriving DecidableEq, Repr

/-- Scanner-producible literal payload of a token (token.rs stores a
LiteralType here, but the scanner only ever produces these variants). -/
inductive Prim
  | num (n : Rat)
  | str (s : String)
  | bool (b : Bool)
  | null
deriving DecidableEq, Repr

/-- token.rs: Token. -/
structure Token where
  token_type : TokenType
  lexeme : String
  literal : Prim
  line : Nat
deriving DecidableEq, Repr

/-- expressions.rs: Expr (the variants the verified properties use). -/
inductive Expr
  | assign (name : Token) (value : Expr)
  | call (callee : Expr) (paren : Token) (arguments : List Expr)
  | grouping (expression : Expr)
  | array (values : List Expr)
  | index (object : Expr) (idx : Expr)
  | assignIndex (object : Expr) (idx : Expr) (value : Expr)
  | literal (value : Prim)
  | unary (operator : Token) (right : Expr)
  | var (name : Token)

mutual
/-- Structural equality on Expr, mirroring the derived PartialEq used as
the key equality of the interpreter's locals HashMap. -/
def Expr.beq : Expr → Expr → Bool
  | .assign n v, .assign n2 v2 => n == n2 && Expr.beq v v2
  | .call c p a, .call c2 p2 a2 => Expr.beq c c2 && p == p2 && Expr.beqList a a2
  | .grouping e, .grouping e2 => Expr.beq e e2
  | .array v, .array v2 => Expr.beqList v v2
  | .index o i, .index o2 i2 => Expr.beq o o2 && Expr.beq i i2
  | .assignIndex o i v, .assignIndex o2 i2 v2 =>
      Expr.beq o o2 && Expr.beq i i2 && Expr.beq v v2
  | .literal p, .literal p2 => p == p2
  | .unary op r, .unary op2 r2 => op == op2 && Expr.beq r r2
  | .var n, .var n2 => n == n2
  | _, _ => false

def Expr.beqList : List Expr → List Expr → Bool
  | [], [] => true
  | x :: xs, y :: ys => Expr.beq x y && Expr.beqList xs ys
  | _, _ => false
end

mutual
/-- statements.rs: Stmt. -/
inductive Stmt
  | block (statements : List Stmt)
  | classDecl (name : Token) (methods : List FunctionDecl)
  | expression (e : Expr)
  | function (f : FunctionDecl)
  | ifStmt (condition : Expr) (thenBranch : Stmt) (elseBranch : Option Stmt)
  | print (e : Expr)
  | ret (keyword : Token) (value : Option Expr)
  | varDecl (name : Token) (initializer : Option Expr)
  | whileStmt (condition : Expr) (body : Stmt)

/-- statements.rs: Function (name, params, body). -/
inductive FunctionDecl
  | mk (name : Token) (params : List Token) (body : List Stmt)
end

def FunctionDecl.name : FunctionDecl → Token
  | .mk n _ _ => n

def FunctionDecl.params : FunctionDecl → List Token
  | .mk _ p _ => p

def FunctionDecl.body : FunctionDecl → List Stmt
  | .mk _ _ b => b

mutual
/-- token.rs: LiteralType, the runtime value model. -/
inductive LiteralType
  | str (s : String)
  | number (n : Rat)
  | bool (b : Bool)
  | array (elements : List LiteralType)
  | callable (c : Callable)
  | null

/-- callable.rs: Callable.  A JasnFunction stores its declaration and the
frame index of its captured closure; a JasnClass its name and method
table; a JasnInstance its class and field map. -/
inductive Callable
  | function (declaration : FunctionDecl) (closure : Nat)
  | classC (name : String) (methods : List (String × Callable))
  | inst (className : String) (methods : List (String × Callable))
         (fields : List (String × LiteralType))
end

/-- error_handler.rs: the Error variants produced by the resolver and the
interpreter (Error::Return carries the returned value). -/
inductive Error
  | runtimeError (line : Nat) (message : String)
  | retSignal (value : LiteralType)
  | resolverError (token : Token) (message : String)

/-- HashMap-as-association-list lookup (string keys). -/
def lookupAssoc {α : Type} : List (String × α) → String → Option α
  | [], _ => none
  | (k, v) :: rest, key => if k = key then some v else lookupAssoc rest key

/-- HashMap::contains_key. -/
def containsKey {α : Type} (m : List (String × α)) (key : String) : Bool :=
  (lookupAssoc m key).isSome

/-- HashMap::insert: overwrite the binding if the key is present. -/
def insertAssoc {α : Type} : List (String × α) → String → α → List (String × α)
  | [], k, v => [(k, v)]
  | (k0, v0) :: rest, k, v =>
      if k0 = k then (k, v) :: rest else (k0, v0) :: insertAssoc rest k v

/-- The interpreter's locals side table: HashMap from Expr (by structural
equality) to resolved distance. -/
def lookupLocals : List (Expr × Nat) → Expr → Option Nat
  | [], _ => none
  | (k, v) :: rest, key => if Expr.beq k key then some v else lookupLocals rest key

def insertLocals : List (Expr × Nat) → Expr → Nat → List (Expr × Nat)
  | [], k, v => [(k, v)]
  | (k0, v0) :: rest, k, v =>
      if Expr.beq k0 k then (k, v) :: rest else (k0, v0) :: insertLocals rest k v

/-- environment.rs: one Environment (scope frame).  The heap address of a
frame plays the role of an EnvRef; `enclosing` holds the parent's address.
Every frame is created with its parent already on the heap, so parent
addresses are strictly smaller than the child's. -/
structure Frame where
  enclosing : Option Nat
  values : List (String × LiteralType)

/-- The interpreter's mutable state: the heap of environment frames
(frame 0 is the fixed global created by Interpreter::new; native-function
registration is omitted), the current-environment pointer, the locals
side table, the errors handed to the error handler's report path, and the
text printed so far. -/
structure InterpState where
  frames : List Frame
  environment : Nat
  locals : List (Expr × Nat)
  reported : List Error
  output : List String

/-- Result of a pure environment operation: Rust Result plus the
possibility of a panic (Option::unwrap / todo!() aborts the process). -/
inductive PRes (α : Type)
  | ok (a : α)
  | err (e : Error)
  | panicked (msg : String)

/-- Environment::define on the frame at address `envId` (insert/overwrite
in that frame only). -/
def defineIn (s : InterpState) (envId : Nat) (name : String) (v : LiteralType) :
    InterpState :=
  match s.frames.get? envId with
  | some f =>
      { s with frames := s.frames.set envId { f with values := insertAssoc f.values name v } }
  | none => s

/-- Environment::get_at: walk exactly `distance` parent links, then read
the name there; the read at distance 0 is an unchecked `unwrap`. -/
def getAt (frames : List Frame) (envId : Nat) : Nat → String → PRes LiteralType
  | 0, name =>
      match frames.get? envId with
      | none => .panicked "dangling environment reference"
      | some f =>
          match lookupAssoc f.values name with
          | some v => .ok v
          | none => .panicked "called Option::unwrap on a None value"
  | d + 1, name =>
      match frames.get? envId with
      | none => .panicked "dangling environment reference"
      | some f =>
          match f.enclosing with
          | some p => getAt frames p d name
          | none => .err (.runtimeError 0 "Environment not found")

/-- Environment::assign_at: walk exactly `distance` parent links, then
insert there unconditionally. -/
def assignAt (frames : List Frame) (envId : Nat) :
    Nat → Token → LiteralType → PRes (List Frame)
  | 0, tok, v =>
      match frames.get? envId with
      | none => .panicked "dangling environment reference"
      | some f =>
          .ok (frames.set envId { f with values := insertAssoc f.values tok.lexeme v })
  | d + 1, tok, v =>
      match frames.get? envId with
      | none => .panicked "dangling environment reference"
      | some f =>
          match f.enclosing with
          | some p => assignAt frames p d tok v
          | none => .err (.runtimeError 0 "Environment not found")

/-- Environment::get (dynamic): search the frame, then the parent chain.
The chain walk is fuelled by the starting address: parents have strictly
smaller addresses, so `envId + 1` steps always suffice on states the
interpreter builds. -/
def getDynAux (frames : List Frame) : Nat → Nat → Token → PRes LiteralType
  | 0, _, _ => .panicked "environment chain exhausted"
  | fuel + 1, envId, tok =>
      match frames.get? envId with
      | none => .panicked "dangling environment reference"
      | some f =>
          match lookupAssoc f.values tok.lexeme with
          | some v => .ok v
          | none =>
              match f.enclosing with
              | some p => getDynAux frames fuel p tok
              | none =>
                  .err (.runtimeError tok.line
                    ("Undefined variable \x27" ++ tok.lexeme ++ "\x27"))

def getDyn (frames : List Frame) (envId : Nat) (tok : Token) : PRes LiteralType :=
  getDynAux frames (envId + 1) envId tok

/-- Environment::assign (dynamic): overwrite in the first frame of the
chain that contains the name. -/
def assignDynAux (frames : List Frame) :
    Nat → Nat → Token → LiteralType → PRes (List Frame)
  | 0, _, _, _ => .panicked "environment chain exhausted"
  | fuel + 1, envId, tok, v =>
      match frames.get? envId with
      | none => .panicked "dangling environment reference"
      | some f =>
          if containsKey f.values tok.lexeme then
            .ok (frames.set envId { f with values := insertAssoc f.values tok.lexeme v })
          else
            match f.enclosing with
            | some p => assignDynAux frames fuel p tok v
            | none =>
                .err (.runtimeError tok.line
                  ("Undefined variable \x27" ++ tok.lexeme ++ "\x27"))

def assignDyn (frames : List Frame) (envId : Nat) (tok : Token) (v : LiteralType) :
    PRes (List Frame) :=
  assignDynAux frames (envId + 1) envId tok v

/-- token.rs: LiteralType::is_truthy (false and null are falsey). -/
def LiteralType.isTruthy : LiteralType → Bool
  | .bool b => b
  | .null => false
  | _ => true

/-- The `n as usize` cast applied to an index: Rust float-to-integer `as`
casts truncate toward zero and saturate, so every negative value becomes 0
and values beyond usize::MAX become usize::MAX. -/
def ratToUsize (q : Rat) : Nat :=
  if q < 0 then 0 else min q.floor.toNat (2 ^ 64 - 1)

/-- Display of an integral number (f64's Display prints integral values
without a decimal point; non-integral display is approximated, and no
verified property inspects it). -/
def dispNum (q : Rat) : String :=
  if q.den = 1 then toString q.num else toString q.num ++ "/" ++ toString q.den

mutual
/-- token.rs: LiteralType::to_string, used by the print statement. -/
def dispLit : LiteralType → String
  | .null => "null"
  | .number n => dispNum n
  | .bool b => if b then "yeah" else "nah"
  | .str s => s
  | .callable c => dispCallable c
  | .array vs => "[" ++ dispElems vs ++ "]"

def dispElems : List LiteralType → String
  | [] => ""
  | [v] => dispLit v
  | v :: rest => dispLit v ++ ", " ++ dispElems rest

/-- callable.rs: Callable::to_string ({:?} on a String adds quotes). -/
def dispCallable : Callable → String
  | .function d _ => "<fn \"" ++ d.name.lexeme ++ "\">"
  | .classC n _ => "<class \"" ++ n ++ "\">"
  | .inst n _ _ => "<\"" ++ n ++ "\" instance>"
end

/-- Convert a scanner literal to its runtime value. -/
def primToLit : Prim → LiteralType
  | .num n => .number n
  | .str s => .str s
  | .bool b => .bool b
  | .null => .null

/-- callable.rs: Callable::arity.  The source computes
`function.declaration.params.len() as u8`, a mod-256 cast. -/
def Callable.arity : Callable → Nat
  | .function d _ => d.params.length % 256
  | .classC _ _ => 0
  | .inst _ _ _ => 0

/-- Result of a stateful interpreter step: Ok/Err carrying the mutated
interpreter state, a process panic, or exhaustion of the step fuel that
makes the recursion well-founded (the source recurses unboundedly). -/
inductive Res (α : Type)
  | ok (a : α) (s : InterpState)
  | err (e : Error) (s : InterpState)
  | panicked (msg : String)
  | fuelOut

/-- Modelled from the spec: the two-argument report macro invoked as
`error!(self, e)` by interpreter.rs and resolver.rs is not among the
sources (src/src/error_handler.rs holds an older three-argument version
whose report_error prints and records every Error variant, Return
included).  Per the report path of the design (§7), reporting an error
hands it to the error handler; modelled as appending it to the handler's
log. -/
def reportError (s : InterpState) (e : Error) : InterpState :=
  { s with reported := s.reported ++ [e] }

/-- callable.rs, Callable::call (Function arm): the argument-binding loop
`for (i, argument) in arguments.iter().enumerate()` defining
`params[i].lexeme` in the (shared) environment; `params[i]` panics when the
arguments outnumber the parameters. -/
def bindParams (envId : Nat) (params : List Token) :
    InterpState → List LiteralType → Nat → PRes InterpState
  | s, [], _ => .ok s
  | s, a :: rest, i =>
      match params.get? i with
      | some p => bindParams envId params (defineIn s envId p.lexeme a) rest (i + 1)
      | none => .panicked "index out of bounds"

mutual
/-- interpreter.rs: Interpreter::evaluate, dispatching to the expression
visitors (visit_assign, visit_call, visit_grouping, visit_array,
visit_index, visit_assign_index, visit_literal, visit_unary,
visit_variable / look_up_variable). -/
def evalExpr : Nat → InterpState → Expr → Res LiteralType
  | 0, _, _ => .fuelOut
  -- visit_assign
  | fuel + 1, s, .assign name value =>
      match evalExpr fuel s value with
      | .ok v s1 =>
          (match lookupLocals s1.locals (.assign name value) with
           | some d =>
               (match assignAt s1.frames s1.environment d name v with
                | .ok frames2 => .ok v { s1 with frames := frames2 }
                | .err e => .err e s1
                | .panicked m => .panicked m)
           | none =>
               (match assignDyn s1.frames 0 name v with
                | .ok frames2 => .ok v { s1 with frames := frames2 }
                | .err e => .err e s1
                | .panicked m => .panicked m))
      | .err e s1 => .err e s1
      | .panicked m => .panicked m
      | .fuelOut => .fuelOut
  -- visit_call: callee first, then the arguments left to right, then the
  -- callable check, then the arity comparison on `len() as u8`
  | fuel + 1, s, .call callee paren args =>
      match evalExpr fuel s callee with
      | .ok calleeV s1 =>
          (match evalArgs fuel s1 args with
           | .ok argVs s2 =>
               (match calleeV with
                | .callable c =>
                    if argVs.length % 256 ≠ c.arity then
                      .err (.runtimeError paren.line
                        ("Expected " ++ toString c.arity ++ " arguments but found "
                          ++ toString argVs.length ++ ".")) s2
                    else
                      callCallable fuel s2 c argVs
                | _ =>
                    .err (.runtimeError paren.line
                      "Can only call functions and classes.") s2)
           | .err e s2 => .err e s2
           | .panicked m => .panicked m
           | .fuelOut => .fuelOut)
      | .err e s1 => .err e s1
      | .panicked m => .panicked m
      | .fuelOut => .fuelOut
  -- visit_grouping
  | fuel + 1, s, .grouping e => evalExpr fuel s e
  -- visit_array
  | fuel + 1, s, .array values =>
      match evalArgs fuel s values with
      | .ok vs s1 => .ok (.array vs) s1
      | .err e s1 => .err e s1
      | .panicked m => .panicked m
      | .fuelOut => .fuelOut
  -- visit_index
  | fuel + 1, s, .index object idxE =>
      match evalExpr fuel s object with
      | .ok arrayV s1 =>
          (match evalExpr fuel s1 idxE with
           | .ok idxV s2 =>
               (match arrayV with
                | .array elements =>
                    (match idxV with
                     | .number n =>
                         if h : ratToUsize n < elements.length then
                           .ok (elements.get ⟨ratToUsize n, h⟩) s2
                         else
                           .err (.runtimeError 0 "Array index out of bounds.") s2
                     | _ => .err (.runtimeError 0 "Array index must be a number.") s2)
                | _ =>
                    .err (.runtimeError 0 "Attempted to index a non-array value.") s2)
           | .err e s2 => .err e s2
           | .panicked m => .panicked m
           | .fuelOut => .fuelOut)
      | .err e s1 => .err e s1
      | .panicked m => .panicked m
      | .fuelOut => .fuelOut
  -- visit_assign_index: the element write lands on the Vec inside the
  -- evaluated (cloned) array value, which is dropped; only `value` is
  -- returned
  | fuel + 1, s, .assignIndex object idxE valueE =>
      match evalExpr fuel s object with
      | .ok arrayV s1 =>
          (match evalExpr fuel s1 idxE with
           | .ok idxV s2 =>
               (match evalExpr fuel s2 valueE with
                | .ok valueV s3 =>
                    (match arrayV with
                     | .array elements =>
                         (match idxV with
                          | .number n =>
                              if ratToUsize n < elements.length then
                                .ok valueV s3
                              else
                                .err (.runtimeError 0 "Array index out of bounds.") s3
                          | _ =>
                              .err (.runtimeError 0 "Array index must be a number.") s3)
                     | _ =>
                         .err (.runtimeError 0 "Attempted to index a non-array value.") s3)
                | .err e s3 => .err e s3
                | .panicked m => .panicked m
                | .fuelOut => .fuelOut)
           | .err e s2 => .err e s2
           | .panicked m => .panicked m
           | .fuelOut => .fuelOut)
      | .err e s1 => .err e s1
      | .panicked m => .panicked m
      | .fuelOut => .fuelOut
  -- visit_literal
  | _ + 1, s, .literal p => .ok (primToLit p) s
  -- visit_unary
  | fuel + 1, s, .unary op right =>
      match evalExpr fuel s right with
      | .ok rv s1 =>
          (match op.token_type with
           | .minus =>
               (match rv with
                | .number n => .ok (.number (-n)) s1
                | _ => .err (.runtimeError op.line "Cannot convert to decimal") s1)
           | .bang => .ok (.bool (! rv.isTruthy)) s1
           | _ => .err (.runtimeError op.line "Invalid unary operator.") s1)
      | .err e s1 => .err e s1
      | .panicked m => .panicked m
      | .fuelOut => .fuelOut
  -- visit_variable / look_up_variable: resolved distance if the side
  -- table has this node, else dynamic lookup in the global frame
  | _ + 1, s, .var name =>
      match lookupLocals s.locals (.var name) with
      | some d =>
          (match getAt s.frames s.environment d name.lexeme with
           | .ok v => .ok v s
           | .err e => .err e s
           | .panicked m => .panicked m)
      | none =>
          match getDyn s.frames 0 name with
          | .ok v => .ok v s
          | .err e => .err e s
          | .panicked m => .panicked m

/-- visit_call's argument loop: evaluate the arguments left to right. -/
def evalArgs : Nat → InterpState → List Expr → Res (List LiteralType)
  | 0, _, _ => .fuelOut
  | _ + 1, s, [] => .ok [] s
  | fuel + 1, s, a :: rest =>
      match evalExpr fuel s a with
      | .ok v s1 =>
          (match evalArgs fuel s1 rest with
           | .ok vs s2 => .ok (v :: vs) s2
           | .err e s2 => .err e s2
           | .panicked m => .panicked m
           | .fuelOut => .fuelOut)
      | .err e s1 => .err e s1
      | .panicked m => .panicked m
      | .fuelOut => .fuelOut

/-- callable.rs: Callable::call.  The Function arm takes
`function.closure.clone()` — a clone of the reference-counted handle, so
the very frame captured at declaration — binds the arguments there and
runs the body in it; Ok completion yields Null and an Error::Return is
converted into the call's value.  The Class arm allocates an instance
with empty fields.  The Instance arm is `todo!()`. -/
def callCallable : Nat → InterpState → Callable → List LiteralType → Res LiteralType
  | 0, _, _, _ => .fuelOut
  | fuel + 1, s, .function decl closure, args =>
      match bindParams closure decl.params s args 0 with
      | .ok s1 =>
          (match execBlock fuel s1 decl.body closure with
           | .ok _ s2 => .ok .null s2
           | .err e s2 =>
               (match e with
                | .retSignal v => .ok v s2
                | _ => .err e s2)
           | .panicked m => .panicked m
           | .fuelOut => .fuelOut)
      | .err e => .err e s
      | .panicked m => .panicked m
  | _ + 1, s, .classC name methods, _ =>
      .ok (.callable (.inst name methods [])) s
  | _ + 1, _, .inst _ _ _, _ => .panicked "not yet implemented"

/-- interpreter.rs: Interpreter::execute_block — switch to the given
environment, run the statements, and always restore the previous
current-environment pointer; the first failing statement is reported
(error!) and aborts the rest of the block. -/
def execBlock : Nat → InterpState → List Stmt → Nat → Res Unit
  | 0, _, _, _ => .fuelOut
  | fuel + 1, s, stmts, envId =>
      execBlockStmts fuel { s with environment := envId } s.environment stmts

/-- The statement loop inside execute_block (`previous` is the saved
current-environment pointer). -/
def execBlockStmts : Nat → InterpState → Nat → List Stmt → Res Unit
  | 0, _, _, _ => .fuelOut
  | _ + 1, s, previous, [] => .ok () { s with environment := previous }
  | fuel + 1, s, previous, stmt :: rest =>
      match execStmt fuel s stmt with
      | .ok _ s1 => execBlockStmts fuel s1 previous rest
      | .err e s1 => .err e (reportError { s1 with environment := previous } e)
      | .panicked m => .panicked m
      | .fuelOut => .fuelOut

/-- interpreter.rs: Interpreter::execute, dispatching to the statement
visitors (visit_block, visit_class, visit_expression, visit_function,
visit_if, visit_print, visit_return, visit_variable, visit_while). -/
def execStmt : Nat → InterpState → Stmt → Res Unit
  | 0, _, _ => .fuelOut
  -- visit_block: a fresh child frame parented at the current environment
  | fuel + 1, s, .block stmts =>
      execBlock fuel { s with frames := s.frames ++ [⟨some s.environment, []⟩] }
        stmts s.frames.length
  -- visit_class: pre-define the name as Null, build the method table with
  -- the current environment as every method's closure, then assign
  -- (dynamically) the class value over the binding
  | _ + 1, s, .classDecl name methods =>
      match defineIn s s.environment name.lexeme .null with
      | s1 =>
          (match assignDyn s1.frames s1.environment name
              (.callable (.classC name.lexeme
                (methods.foldl
                  (fun acc m => insertAssoc acc m.name.lexeme
                    (Callable.function m s1.environment)) []))) with
           | .ok frames2 => .ok () { s1 with frames := frames2 }
           | .err e => .err e s1
           | .panicked m => .panicked m)
  -- visit_expression
  | fuel + 1, s, .expression e =>
      match evalExpr fuel s e with
      | .ok _ s1 => .ok () s1
      | .err e2 s1 => .err e2 s1
      | .panicked m => .panicked m
      | .fuelOut => .fuelOut
  -- visit_function: bind a JasnFunction closing over the current frame
  | _ + 1, s, .function f =>
      .ok () (defineIn s s.environment f.name.lexeme
        (.callable (.function f s.environment)))
  -- visit_if
  | fuel + 1, s, .ifStmt cond thenB elseB =>
      match evalExpr fuel s cond with
      | .ok v s1 =>
          if v.isTruthy then execStmt fuel s1 thenB
          else
            (match elseB with
             | some eb => execStmt fuel s1 eb
             | none => .ok () s1)
      | .err e s1 => .err e s1
      | .panicked m => .panicked m
      | .fuelOut => .fuelOut
  -- visit_print
  | fuel + 1, s, .print e =>
      match evalExpr fuel s e with
      | .ok v s1 => .ok () { s1 with output := s1.output ++ [dispLit v] }
      | .err e2 s1 => .err e2 s1
      | .panicked m => .panicked m
      | .fuelOut => .fuelOut
  -- visit_return: signal an Error::Return carrying the value
  | fuel + 1, s, .ret _ value =>
      (match value with
       | some v =>
           (match evalExpr fuel s v with
            | .ok val s1 => .err (.retSignal val) s1
            | .err e s1 => .err e s1
            | .panicked m => .panicked m
            | .fuelOut => .fuelOut)
       | none => .err (.retSignal .null) s)
  -- visit_variable (statement)
  | fuel + 1, s, .varDecl name initializer =>
      (match initializer with
       | some i =>
           (match evalExpr fuel s i with
            | .ok v s1 => .ok () (defineIn s1 s1.environment name.lexeme v)
            | .err e s1 => .err e s1
            | .panicked m => .panicked m
            | .fuelOut => .fuelOut)
       | none => .ok () (defineIn s s.environment name.lexeme .null))
  -- visit_while
  | fuel + 1, s, .whileStmt cond body =>
      match evalExpr fuel s cond with
      | .ok v s1 =>
          if v.isTruthy then
            (match execStmt fuel s1 body with
             | .ok _ s2 => execStmt fuel s2 (.whileStmt cond body)
             | .err e s2 => .err e s2
             | .panicked m => .panicked m
             | .fuelOut => .fuelOut)
          else .ok () s1
      | .err e s1 => .err e s1
      | .panicked m => .panicked m
      | .fuelOut => .fuelOut
end

/-- interpreter.rs: Interpreter::interpret — execute the top-level
statements in order; a failing statement is reported (error!) and the
next top-level statement still runs. -/
def interpret (fuel : Nat) : InterpState → List Stmt → Res Unit
  | s, [] => .ok () s
  | s, stmt :: rest =>
      match execStmt fuel s stmt with
      | .ok _ s1 => interpret fuel s1 rest
      | .err e s1 => interpret fuel (reportError s1 e) rest
      | .panicked m => .panicked m
      | .fuelOut => .fuelOut

/-- callable.rs: FunctionType, the resolver's current-function tracking. -/
inductive FunctionType
  | none
  | function
  | method
deriving DecidableEq

/-- resolver.rs: the Resolver's state — the stack of scope maps
(name to "fully initialized"), the current function kind, the side table
written into the interpreter via Interpreter::resolve, and the errors
handed to the report path. -/
structure ResolverState where
  scopes : List (List (String × Bool))
  currentFunction : FunctionType
  locals : List (Expr × Nat)
  reported : List Error

/-- Result of a resolver step (errors keep the state mutated so far,
matching the `&mut self` receiver). -/
inductive ResOut
  | ok (r : ResolverState)
  | err (e : Error) (r : ResolverState)
  | panicked (msg : String)
  | fuelOut

/-- The resolver's use of the same report macro (see reportError). -/
def reportResolverError (r : ResolverState) (e : Error) : ResolverState :=
  { r with reported := r.reported ++ [e] }

/-- resolver.rs: begin_scope — push an empty scope map. -/
def beginScope (r : ResolverState) : ResolverState :=
  { r with scopes := r.scopes ++ [[]] }

/-- resolver.rs: end_scope — pop the innermost scope map. -/
def endScope (r : ResolverState) : ResolverState :=
  { r with scopes := r.scopes.dropLast }

/-- resolver.rs: declare — a no-op when the scope stack is empty, an
error when the name already exists in the innermost scope, otherwise an
insert with the not-yet-initialized marker. -/
def declare (r : ResolverState) (name : Token) : Except Error ResolverState :=
  match r.scopes.getLast? with
  | Option.none => .ok r
  | some scope =>
      if containsKey scope name.lexeme then
        .error (.resolverError name
          "There\x27s already a variable with this name in this scope.")
      else
        .ok { r with scopes := r.scopes.dropLast ++ [insertAssoc scope name.lexeme false] }

/-- resolver.rs: define — flip the innermost scope's entry to
initialized (no-op when the scope stack is empty). -/
def defineName (r : ResolverState) (name : Token) : ResolverState :=
  match r.scopes.getLast? with
  | Option.none => r
  | some scope =>
      { r with scopes := r.scopes.dropLast ++ [insertAssoc scope name.lexeme true] }

/-- resolver.rs: resolve_local — find the name scanning scopes from
innermost to outermost; on the first hit at index i record distance i in
the side table (Interpreter::resolve inserts into the locals HashMap). -/
def resolveLocal (r : ResolverState) (expr : Expr) (name : Token) : ResolverState :=
  match List.findIdx? (fun scope => containsKey scope name.lexeme) r.scopes.reverse with
  | some i => { r with locals := insertLocals r.locals expr i }
  | Option.none => r

/-- resolve_function's parameter loop: declare then define each
parameter, propagating a declaration error. -/
def declareParams : ResolverState → List Token → ResOut
  | r, [] => .ok r
  | r, p :: rest =>
      match declare r p with
      | .error e => .err e r
      | .ok r1 => declareParams (defineName r1 p) rest

mutual
/-- resolver.rs: resolve_stmt, dispatching to the statement visitors. -/
def resolveStmt : Nat → ResolverState → Stmt → ResOut
  | 0, _, _ => .fuelOut
  -- visit_block (statement)
  | fuel + 1, r, .block stmts =>
      (match resolveStmts fuel (beginScope r) stmts with
       | .ok r1 => .ok (endScope r1)
       | .err e r1 => .err e r1
       | .panicked m => .panicked m
       | .fuelOut => .fuelOut)
  -- Modelled from the spec: resolver.rs lacks the visit_class arm of the
  -- statement visitor; §4.2 step 6 says "declare the class name in the
  -- enclosing scope; each method is resolved as a function" (with the
  -- Method function kind)
  | fuel + 1, r, .classDecl name methods =>
      (match declare r name with
       | .error e => .err e r
       | .ok r1 => resolveMethods fuel (defineName r1 name) methods)
  -- visit_expression (statement)
  | fuel + 1, r, .expression e =>
      (match resolveExpr fuel r e with
       | .ok r1 => .ok r1
       | .err e2 r1 => .err e2 r1
       | .panicked m => .panicked m
       | .fuelOut => .fuelOut)
  -- visit_function (statement)
  | fuel + 1, r, .function f =>
      (match declare r f.name with
       | .error e => .err e r
       | .ok r1 => resolveFunction fuel (defineName r1 f.name) f .function)
  -- visit_if (statement)
  | fuel + 1, r, .ifStmt cond thenB elseB =>
      (match resolveExpr fuel r cond with
       | .ok r1 =>
           (match resolveStmt fuel r1 thenB with
            | .ok r2 =>
                (match elseB with
                 | some eb => resolveStmt fuel r2 eb
                 | Option.none => .ok r2)
            | .err e r2 => .err e r2
            | .panicked m => .panicked m
            | .fuelOut => .fuelOut)
       | .err e r1 => .err e r1
       | .panicked m => .panicked m
       | .fuelOut => .fuelOut)
  -- visit_print (statement)
  | fuel + 1, r, .print e =>
      (match resolveExpr fuel r e with
       | .ok r1 => .ok r1
       | .err e2 r1 => .err e2 r1
       | .panicked m => .panicked m
       | .fuelOut => .fuelOut)
  -- visit_return (statement): a static error outside any function
  | fuel + 1, r, .ret keyword value =>
      if r.currentFunction = FunctionType.none then
        .err (.resolverError keyword "Can\x27t return from top-level code.") r
      else
        (match value with
         | some v =>
             (match resolveExpr fuel r v with
              | .ok r1 => .ok r1
              | .err e r1 => .err e r1
              | .panicked m => .panicked m
              | .fuelOut => .fuelOut)
         | Option.none => .ok r)
  -- visit_variable (statement): declare, resolve the initializer, define
  | fuel + 1, r, .varDecl name initializer =>
      (match declare r name with
       | .error e => .err e r
       | .ok r1 =>
           (match initializer with
            | some i =>
                (match resolveExpr fuel r1 i with
                 | .ok r2 => .ok (defineName r2 name)
                 | .err e r2 => .err e r2
                 | .panicked m => .panicked m
                 | .fuelOut => .fuelOut)
            | Option.none => .ok (defineName r1 name)))
  -- visit_while (statement)
  | fuel + 1, r, .whileStmt cond body =>
      (match resolveExpr fuel r cond with
       | .ok r1 => resolveStmt fuel r1 body
       | .err e r1 => .err e r1
       | .panicked m => .panicked m
       | .fuelOut => .fuelOut)

/-- resolver.rs: resolve_block — resolve each statement, reporting a
failing statement's error (error!) and continuing with the next. -/
def resolveStmts : Nat → ResolverState → List Stmt → ResOut
  | 0, _, _ => .fuelOut
  | _ + 1, r, [] => .ok r
  | fuel + 1, r, stmt :: rest =>
      match resolveStmt fuel r stmt with
      | .ok r1 => resolveStmts fuel r1 rest
      | .err e r1 => resolveStmts fuel (reportResolverError r1 e) rest
      | .panicked m => .panicked m
      | .fuelOut => .fuelOut

/-- resolver.rs: resolve_function — save and set the current function
kind, push a scope, declare+define the parameters, resolve the body,
pop the scope and restore the kind (an error in a parameter declaration
returns early, skipping the pops). -/
def resolveFunction : Nat → ResolverState → FunctionDecl → FunctionType → ResOut
  | 0, _, _, _ => .fuelOut
  | fuel + 1, r, f, ftype =>
      match declareParams (beginScope { r with currentFunction := ftype }) f.params with
      | .ok r1 =>
          (match resolveStmts fuel r1 f.body with
           | .ok r2 => .ok { endScope r2 with currentFunction := r.currentFunction }
           | .err e r2 => .err e r2
           | .panicked m => .panicked m
           | .fuelOut => .fuelOut)
      | .err e r1 => .err e r1
      | .panicked m => .panicked m
      | .fuelOut => .fuelOut

/-- The method loop of the spec-modelled class resolution: each method
resolved as a function of kind Method. -/
def resolveMethods : Nat → ResolverState → List FunctionDecl → ResOut
  | 0, _, _ => .fuelOut
  | _ + 1, r, [] => .ok r
  | fuel + 1, r, m :: rest =>
      match resolveFunction fuel r m .method with
      | .ok r1 => resolveMethods fuel r1 rest
      | .err e r1 => .err e r1
      | .panicked m2 => .panicked m2
      | .fuelOut => .fuelOut

/-- resolver.rs: resolve_expr, dispatching to the expression visitors. -/
def resolveExpr : Nat → ResolverState → Expr → ResOut
  | 0, _, _ => .fuelOut
  -- visit_assign (expression): value first, then resolve_local keyed by
  -- the whole assignment node
  | fuel + 1, r, .assign name value =>
      (match resolveExpr fuel r value with
       | .ok r1 => .ok (resolveLocal r1 (.assign name value) name)
       | .err e r1 => .err e r1
       | .panicked m => .panicked m
       | .fuelOut => .fuelOut)
  -- visit_call (expression): callee propagates; each argument is
  -- resolved under `.unwrap()`, so an argument error is a panic
  | fuel + 1, r, .call callee _ args =>
      (match resolveExpr fuel r callee with
       | .ok r1 => resolveExprsUnwrapped fuel r1 args
       | .err e r1 => .err e r1
       | .panicked m => .panicked m
       | .fuelOut => .fuelOut)
  -- visit_grouping (expression)
  | fuel + 1, r, .grouping e => resolveExpr fuel r e
  -- visit_array (expression): the same `.unwrap()` loop over the values
  | fuel + 1, r, .array values => resolveExprsUnwrapped fuel r values
  -- visit_index (expression)
  | fuel + 1, r, .index object idxE =>
      (match resolveExpr fuel r object with
       | .ok r1 => resolveExpr fuel r1 idxE
       | .err e r1 => .err e r1
       | .panicked m => .panicked m
       | .fuelOut => .fuelOut)
  -- Modelled from the spec: resolver.rs lacks the visit_assign_index arm
  -- of the expression visitor; resolved like Index plus the assigned
  -- value, with no resolve_local (no variable is bound by the node)
  | fuel + 1, r, .assignIndex object idxE valueE =>
      (match resolveExpr fuel r object with
       | .ok r1 =>
           (match resolveExpr fuel r1 idxE with
            | .ok r2 => resolveExpr fuel r2 valueE
            | .err e r2 => .err e r2
            | .panicked m => .panicked m
            | .fuelOut => .fuelOut)
       | .err e r1 => .err e r1
       | .panicked m => .panicked m
       | .fuelOut => .fuelOut)
  -- visit_literal (expression)
  | _ + 1, r, .literal _ => .ok r
  -- visit_unary (expression)
  | fuel + 1, r, .unary _ right => resolveExpr fuel r right
  -- visit_variable (expression): the self-initializer check, then
  -- resolve_local
  | _ + 1, r, .var name =>
      match r.scopes.getLast? with
      | some scope =>
          if lookupAssoc scope name.lexeme = some false then
            .err (.resolverError name
              "Can\x27t read local variables in its own initializer.") r
          else .ok (resolveLocal r (.var name) name)
      | Option.none => .ok (resolveLocal r (.var name) name)

/-- The `.for_each(|e| self.resolve_expr(e).unwrap())` loops of
visit_call and visit_array. -/
def resolveExprsUnwrapped : Nat → ResolverState → List Expr → ResOut
  | 0, _, _ => .fuelOut
  | _ + 1, r, [] => .ok r
  | fuel + 1, r, e :: rest =>
      match resolveExpr fuel r e with
      | .ok r1 => resolveExprsUnwrapped fuel r1 rest
      | .err _ _ => .panicked "called Result::unwrap on an Err value"
      | .panicked m => .panicked m
      | .fuelOut => .fuelOut
end

/-- Resolver::new: empty scope stack, FunctionType::None, nothing
resolved or reported yet. -/
def initialResolver : ResolverState :=
  { scopes := [], currentFunction := .none, locals := [], reported := [] }

/-- Interpreter::new (native registration omitted): one global frame,
current environment the global, the side table as resolved. -/
def initState (locals : List (Expr × Nat)) : InterpState :=
  { frames := [⟨Option.none, []⟩], environment := 0, locals := locals,
    reported := [], output := [] }

/-- Outcome of lib.rs run (post-parse): static errors stop the pipeline
before interpretation; otherwise the interpreter runs on the annotated
program. -/
inductive RunOut
  | staticErr (r : ResolverState)
  | executed (res : Res Unit)
  | resolverStuck (msg : String)

/-- lib.rs: run — resolve the statements, stop if the error handler saw
any error, otherwise interpret. -/
def runProgram (fuel : Nat) (stmts : List Stmt) : RunOut :=
  match resolveStmts fuel initialResolver stmts with
  | .ok r =>
      if r.reported.isEmpty then .executed (interpret fuel (initState r.locals) stmts)
      else .staticErr r
  | .err e r => .staticErr (reportResolverError r e)
  | .panicked m => .resolverStuck m
  | .fuelOut => .resolverStuck "fuel"

/-- An identifier token. -/
def identTok (name : String) (line : Nat) : Token :=
  { token_type := .identifier, lexeme := name, literal := .null, line := line }

/-- The closing-paren token a call expression stores. -/
def parenTok (line : Nat) : Token :=
  { token_type := .rightParen, lexeme := ")", literal := .null, line := line }

/-- A return keyword token. -/
def retTok (line : Nat) : Token :=
  { token_type := .returnTok, lexeme := "return", literal := .null, line := line }

/-- A unary-minus operator token. -/
def minusTok (line : Nat) : Token :=
  { token_type := .minus, lexeme := "-", literal := .null, line := line }

/-- The printed output of a completed run. -/
def RunOut.outputOf : RunOut → Option (List String)
  | .executed (.ok _ s) => some s.output
  | .executed (.err _ s) => some s.output
  | _ => Option.none

/-- The errors the run handed to the report path. -/
def RunOut.reportedOf : RunOut → Option (List Error)
  | .executed (.ok _ s) => some s.reported
  | .executed (.err _ s) => some s.reported
  | _ => Option.none

/-- Did the run reach the interpreter and finish without error or
panic? -/
def RunOut.completedOk : RunOut → Bool
  | .executed (.ok _ _) => true
  | _ => false

/-- `{ var a = 1; funk f() { return a; } f(); }` — a closure reference
resolved at distance 1 from inside a function body. -/
def closureDistanceProgram : List Stmt :=
  [.block
    [.varDecl (identTok "a" 2) (some (.literal (.num 1))),
     .function (.mk (identTok "f" 3) []
       [.ret (retTok 3) (some (.var (identTok "a" 3)))]),
     .expression (.call (.var (identTok "f" 4)) (parenTok 4) [])]]

/-- `{ var x = 1; funk f(x) {} f(2); print x; }` — a parameter shadowing
an outer variable of the declaration scope. -/
def paramShadowProgram : List Stmt :=
  [.block
    [.varDecl (identTok "x" 2) (some (.literal (.num 1))),
     .function (.mk (identTok "f" 3) [identTok "x" 3] []),
     .expression (.call (.var (identTok "f" 4)) (parenTok 4) [.literal (.num 2)]),
     .print (.var (identTok "x" 5))]]

/-- `funk g() { return 5; } var r = g(); print r;`. -/
def returnFiveProgram : List Stmt :=
  [.function (.mk (identTok "g" 1) []
    [.ret (retTok 1) (some (.literal (.num 5)))]),
   .varDecl (identTok "r" 2) (some (.call (.var (identTok "g" 2)) (parenTok 2) [])),
   .print (.var (identTok "r" 3))]

/-- `print q; print 1;` with `q` never declared. -/
def undefinedThenPrintProgram : List Stmt :=
  [.print (.var (identTok "q" 1)), .print (.literal (.num 1))]

/-- `class C {} var i = C(); i();` — calling an instance. -/
def callInstanceProgram : List Stmt :=
  [.classDecl (identTok "C" 1) [],
   .varDecl (identTok "i" 2) (some (.call (.var (identTok "C" 2)) (parenTok 2) [])),
   .expression (.call (.var (identTok "i" 3)) (parenTok 3) [])]

/-- `class K {}` followed by a call of K with 256 arguments. -/
def call256ArgsProgram : List Stmt :=
  [.classDecl (identTok "K" 1) [],
   .expression (.call (.var (identTok "K" 2)) (parenTok 2)
     (List.replicate 256 (.literal (.num 1))))]

/-- The expression `[10, 20][-1]`. -/
def negativeIndexExpr : Expr :=
  .index (.array [.literal (.num 10), .literal (.num 20)])
         (.unary (minusTok 1) (.literal (.num 1)))

/-- `var a = [10, 20]; print a[0] = 99; print a[0];`. -/
def assignIndexProgram : List Stmt :=
  [.varDecl (identTok "a" 1) (some (.array [.literal (.num 10), .literal (.num 20)])),
   .print (.assignIndex (.var (identTok "a" 2)) (.literal (.num 0)) (.literal (.num 99))),
   .print (.index (.var (identTok "a" 3)) (.literal (.num 0)))]

/-- `var a = 1; var a = 2;` at the global scope. -/
def globalDuplicateProgram : List Stmt :=
  [.varDecl (identTok "a" 1) (some (.literal (.num 1))),
   .varDecl (identTok "a" 2) (some (.literal (.num 2)))]

/-- `{ var a = 1; var a = 2; }` — a duplicate inside one block scope. -/
def blockDuplicateProgram : List Stmt :=
  [.block
    [.varDecl (identTok "a" 2) (some (.literal (.num 1))),
     .varDecl (identTok "a" 3) (some (.literal (.num 2)))]]

/-- `class C {} var i = C(); i(1);` — calling an instance with one
argument. -/
def callInstanceArgProgram : List Stmt :=
  [.classDecl (identTok "C" 1) [],
   .varDecl (identTok "i" 2) (some (.call (.var (identTok "C" 2)) (parenTok 2) [])),
   .expression (.call (.var (identTok "i" 3)) (parenTok 3) [.literal (.num 1)])]

/-- `{ var a = 1; { var a = 2; } }` — shadowing in a nested scope. -/
def shadowProgram : List Stmt :=
  [.block
    [.varDecl (identTok "a" 2) (some (.literal (.num 1))),
     .block [.varDecl (identTok "a" 3) (some (.literal (.num 2)))]]]

/-- A state whose global frame binds `K` to an argumentless class. -/
def stateWithK : InterpState :=
  { frames := [⟨Option.none, [("K", .callable (.classC "K" []))]⟩], environment := 0,
    locals := [], reported := [], output := [] }

/-- The reported errors of a resolver outcome. -/
def ResOut.reportedOf : ResOut → Option (List Error)
  | .ok r => some r.reported
  | .err _ r => some r.reported
  | _ => Option.none

/-- The side table of a successful resolver outcome. -/
def ResOut.localsOf : ResOut → Option (List (Expr × Nat))
  | .ok r => some r.locals
  | _ => Option.none

/-- The report log of a run stopped by static errors. -/
def RunOut.staticReported : RunOut → Option (List Error)
  | .staticErr r => some r.reported
  | _ => Option.none

/-- Reporting never moves the current-environment pointer. -/
theorem reportError_environment (s : InterpState) (e : Error) :
    (reportError s e).environment = s.environment := rfl

/-- execute_block's statement loop hands back the saved
current-environment pointer whenever it completes normally. -/
theorem execBlockStmts_ok_env : ∀ fuel s prev stmts s',
    execBlockStmts fuel s prev stmts = .ok () s' → s'.environment = prev := by
  intro fuel
  induction fuel with
  | zero => intro s prev stmts s' h; exact Res.noConfusion h
  | succ n ih =>
      intro s prev stmts s' h
      cases stmts with
      | nil =>
          simp only [execBlockStmts, Res.ok.injEq] at h
          rw [← h.2]
      | cons stmt rest =>
          simp only [execBlockStmts] at h
          cases hx : execStmt n s stmt with
          | ok a s1 => rw [hx] at h; exact ih s1 prev rest s' h
          | err e s1 => rw [hx] at h; exact Res.noConfusion h
          | panicked m => rw [hx] at h; exact Res.noConfusion h
          | fuelOut => rw [hx] at h; exact Res.noConfusion h

/-- execute_block's statement loop hands back the saved
current-environment pointer whenever a statement fails. -/
theorem execBlockStmts_err_env : ∀ fuel s prev stmts e s',
    execBlockStmts fuel s prev stmts = .err e s' → s'.environment = prev := by
  intro fuel
  induction fuel with
  | zero => intro s prev stmts e s' h; exact Res.noConfusion h
  | succ n ih =>
      intro s prev stmts e s' h
      cases stmts with
      | nil => exact Res.noConfusion h
      | cons stmt rest =>
          simp only [execBlockStmts] at h
          cases hx : execStmt n s stmt with
          | ok a s1 => rw [hx] at h; exact ih s1 prev rest e s' h
          | err e2 s1 => rw [hx] at h; cases h; rfl
          | panicked m => rw [hx] at h; exact Res.noConfusion h
          | fuelOut => rw [hx] at h; exact Res.noConfusion h

/-- Every error execute_block's loop propagates has been handed to the
report path (it appears in the resulting report log). -/
theorem execBlockStmts_err_mem : ∀ fuel s prev stmts e s',
    execBlockStmts fuel s prev stmts = .err e s' → e ∈ s'.reported := by
  intro fuel
  induction fuel with
  | zero => intro s prev stmts e s' h; exact Res.noConfusion h
  | succ n ih =>
      intro s prev stmts e s' h
      cases stmts with
      | nil => exact Res.noConfusion h
      | cons stmt rest =>
          simp only [execBlockStmts] at h
          cases hx : execStmt n s stmt with
          | ok a s1 => rw [hx] at h; exact ih s1 prev rest e s' h
          | err e2 s1 =>
              rw [hx] at h
              cases h
              simp [reportError]
          | panicked m => rw [hx] at h; exact Res.noConfusion h
          | fuelOut => rw [hx] at h; exact Res.noConfusion h

/-- Lifting of the previous lemma to execute_block itself. -/
theorem execBlock_err_mem (fuel : Nat) (s : InterpState) (stmts : List Stmt)
    (envId : Nat) (e : Error) (s' : InterpState)
    (h : execBlock fuel s stmts envId = .err e s') : e ∈ s'.reported := by
  cases fuel with
  | zero => exact Res.noConfusion h
  | succ n =>
      simp only [execBlock] at h
      exact execBlockStmts_err_mem n _ _ _ e s' h

/-- C1: evaluation of the program
`{ var a = 1; funk f() { return a; } f(); }` shows the claimed
resolver/runtime distance invariant failing: the resolver accepts the
program and annotates the reference to `a` inside f's body with distance
1, yet running the program panics inside get_at — one parent link above
the environment current at that reference (the closure frame itself,
because Callable::call creates no fresh frame) sits the global frame,
which does not define `a`. -/
theorem c1_resolved_distance_unreachable :
    ResOut.reportedOf (resolveStmts 100 initialResolver closureDistanceProgram) = some []
    ∧ (ResOut.localsOf (resolveStmts 100 initialResolver closureDistanceProgram)).map
        (fun l => lookupLocals l (.var (identTok "a" 3))) = some (some 1)
    ∧ runProgram 100 closureDistanceProgram
        = .executed (.panicked "called Option::unwrap on a None value") :=
  ⟨rfl, rfl, rfl⟩

/-- C2: evaluation of `{ var x = 1; funk f(x) {} f(2); print x; }` shows
the call NOT creating a child environment of the closure: the parameter
is bound in the closure frame itself, overwriting the outer `x`, so the
program prints 2 (a fresh child frame would leave the outer `x` at 1). -/
theorem c2_call_binds_into_closure_frame :
    RunOut.outputOf (runProgram 100 paramShadowProgram) = some ["2"]
    ∧ RunOut.reportedOf (runProgram 100 paramShadowProgram) = some [] :=
  ⟨rfl, rfl⟩

/-- C3 counterexample: running `funk g() { return 5; } var r = g();
print r;` delivers the Return control-transfer signal to the report path
— the run's report log holds `Return(5)` — even though the call itself
still evaluates to 5. -/
theorem c3_return_signal_reaches_report_path :
    RunOut.reportedOf (runProgram 100 returnFiveProgram) = some [.retSignal (.number 5)]
    ∧ RunOut.outputOf (runProgram 100 returnFiveProgram) = some ["5"] :=
  ⟨rfl, rfl⟩

/-- C3 (amended): when a function body signals Return(v), the call
mechanism converts the signal into the call's result value v, but the
signal has also been handed to the error handler's report path by
execute_block (it appears in the resulting report log). -/
theorem c3_return_intercepted_but_reported (fuel : Nat) (s s1 s2 : InterpState)
    (decl : FunctionDecl) (closure : Nat) (args : List LiteralType) (v : LiteralType)
    (hbind : bindParams closure decl.params s args 0 = .ok s1)
    (hbody : execBlock fuel s1 decl.body closure = .err (.retSignal v) s2) :
    callCallable (fuel + 1) s (.function decl closure) args = .ok v s2
    ∧ Error.retSignal v ∈ s2.reported := by
  refine ⟨?_, execBlock_err_mem fuel s1 decl.body closure _ s2 hbody⟩
  simp only [callCallable, hbind, hbody]

/-- C3 witness: the amended statement at the concrete function
`funk g() { return 5; }` called on no arguments from the initial state. -/
theorem c3_return_intercepted_witness :
    callCallable 6 (initState [])
        (.function (.mk (identTok "g" 1) []
          [.ret (retTok 1) (some (.literal (.num 5)))]) 0) []
      = .ok (.number 5) { initState [] with reported := [.retSignal (.number 5)] }
    ∧ Error.retSignal (.number 5)
        ∈ InterpState.reported { initState [] with reported := [.retSignal (.number 5)] } :=
  c3_return_intercepted_but_reported 5 (initState []) (initState [])
    { initState [] with reported := [.retSignal (.number 5)] }
    (.mk (identTok "g" 1) [] [.ret (retTok 1) (some (.literal (.num 5)))]) 0 []
    (.number 5) rfl rfl

/-- C4: execute_block restores the previous current-environment pointer
both on normal completion and on a failing statement (also when entered
through a block statement), and after the first failing statement the
result does not depend on the remaining statements of the block. -/
theorem c4_block_restores_environment (fuel : Nat) (s : InterpState)
    (stmts : List Stmt) (envId : Nat) :
    (∀ s', execBlock fuel s stmts envId = .ok () s' → s'.environment = s.environment)
    ∧ (∀ e s', execBlock fuel s stmts envId = .err e s' → s'.environment = s.environment)
    ∧ (∀ s', execStmt (fuel + 1) s (.block stmts) = .ok () s' →
        s'.environment = s.environment)
    ∧ (∀ e s', execStmt (fuel + 1) s (.block stmts) = .err e s' →
        s'.environment = s.environment)
    ∧ (∀ stmt rest rest' e s1, execStmt fuel s stmt = .err e s1 →
        execBlockStmts (fuel + 1) s envId (stmt :: rest)
          = execBlockStmts (fuel + 1) s envId (stmt :: rest')) := by
  refine ⟨?_, ?_, ?_, ?_, ?_⟩
  · intro s' h
    cases fuel with
    | zero => exact Res.noConfusion h
    | succ n => exact execBlockStmts_ok_env n _ _ _ _ h
  · intro e s' h
    cases fuel with
    | zero => exact Res.noConfusion h
    | succ n => exact execBlockStmts_err_env n _ _ _ _ _ h
  · intro s' h
    have h2 : execBlock fuel
        { s with frames := s.frames ++ [⟨some s.environment, []⟩] } stmts
        s.frames.length = .ok () s' := h
    cases fuel with
    | zero => exact Res.noConfusion h2
    | succ n => exact execBlockStmts_ok_env n _ _ _ _ h2
  · intro e s' h
    have h2 : execBlock fuel
        { s with frames := s.frames ++ [⟨some s.environment, []⟩] } stmts
        s.frames.length = .err e s' := h
    cases fuel with
    | zero => exact Res.noConfusion h2
    | succ n => exact execBlockStmts_err_env n _ _ _ _ _ h2
  · intro stmt rest rest' e s1 hx
    simp only [execBlockStmts, hx]

/-- C4 witness: a concrete block whose first statement fails on an
undefined variable; the resulting state's environment pointer equals the
original one. -/
theorem c4_block_restores_environment_witness :
    execBlock 9 (initState [])
        [.print (.var (identTok "q" 1)), .print (.literal (.num 1))] 0
      = .err (.runtimeError 1 "Undefined variable \x27q\x27")
          { initState [] with reported := [.runtimeError 1 "Undefined variable \x27q\x27"] }
    ∧ InterpState.environment
        { initState [] with reported := [.runtimeError 1 "Undefined variable \x27q\x27"] }
        = InterpState.environment (initState []) :=
  ⟨rfl,
   (c4_block_restores_environment 9 (initState [])
      [.print (.var (identTok "q" 1)), .print (.literal (.num 1))] 0).2.1
     (.runtimeError 1 "Undefined variable \x27q\x27")
     { initState [] with reported := [.runtimeError 1 "Undefined variable \x27q\x27"] }
     rfl⟩

/-- C5: when a top-level statement fails, interpret reports the error to
the handler and continues interpreting the remaining top-level
statements from the reported state. -/
theorem c5_toplevel_error_reported_then_continue (fuel : Nat) (s : InterpState)
    (stmt : Stmt) (rest : List Stmt) (e : Error) (s1 : InterpState)
    (h : execStmt fuel s stmt = .err e s1) :
    interpret fuel s (stmt :: rest) = interpret fuel (reportError s1 e) rest := by
  simp only [interpret, h]

/-- C5 witness: `print q; print 1;` with q undefined — the first
statement's error is reported and the second still prints, so the full
run outputs "1". -/
theorem c5_toplevel_continue_witness :
    interpret 9 (initState []) undefinedThenPrintProgram
      = interpret 9
          (reportError (initState []) (.runtimeError 1 "Undefined variable \x27q\x27"))
          [.print (.literal (.num 1))]
    ∧ RunOut.outputOf (runProgram 100 undefinedThenPrintProgram) = some ["1"]
    ∧ RunOut.reportedOf (runProgram 100 undefinedThenPrintProgram)
        = some [.runtimeError 1 "Undefined variable \x27q\x27"] :=
  ⟨c5_toplevel_error_reported_then_continue 9 (initState [])
      (.print (.var (identTok "q" 1))) [.print (.literal (.num 1))]
      (.runtimeError 1 "Undefined variable \x27q\x27") (initState []) rfl,
   rfl, rfl⟩

/-- C6: calling a class instance is not intercepted by the interpreter
— an instance is a Callable, so `class C {} var i = C(); i();` passes
the callable and arity checks, reaches Callable::call's Instance arm and
panics at its todo!(); with a nonzero argument count
(`class C {} var i = C(); i(1);`) the reported error is the
arity RuntimeError, not a NotCallable error. -/
theorem c6_calling_instance_panics :
    runProgram 100 callInstanceProgram = .executed (.panicked "not yet implemented")
    ∧ RunOut.reportedOf (runProgram 100 callInstanceArgProgram)
        = some [.runtimeError 3 "Expected 0 arguments but found 1."] :=
  ⟨rfl, rfl⟩

/-- C7 counterexample: `class K {}` called with 256 arguments — the
argument count is compared as a u8, so 256 wraps to 0, the arity check
passes and the whole run completes with no error raised or reported. -/
theorem c7_arity_check_mod256_bypassed :
    RunOut.completedOk (runProgram 300 call256ArgsProgram) = true
    ∧ RunOut.reportedOf (runProgram 300 call256ArgsProgram) = some [] :=
  ⟨rfl, rfl⟩

/-- C7 (amended): a call evaluates the callee first (a callee error
propagates untouched), then the arguments left to right (an argument
error propagates before the ones after it are evaluated); when the
callee is a Callable and the argument count differs from the declared
arity modulo 256 (both compared after the source's `as u8` cast), the
call raises a RuntimeError at the call site and the callee is never
invoked — the resulting state is exactly the post-argument state. -/
theorem c7_call_order_and_arity (fuel : Nat) (s : InterpState) (callee : Expr)
    (paren : Token) (args : List Expr) :
    (∀ e s1, evalExpr fuel s callee = .err e s1 →
        evalExpr (fuel + 1) s (.call callee paren args) = .err e s1)
    ∧ (∀ a rest e s1, evalExpr fuel s a = .err e s1 →
        evalArgs (fuel + 1) s (a :: rest) = .err e s1)
    ∧ (∀ c s1 argVs s2, evalExpr fuel s callee = .ok (.callable c) s1 →
        evalArgs fuel s1 args = .ok argVs s2 →
        argVs.length % 256 ≠ c.arity →
        evalExpr (fuel + 1) s (.call callee paren args)
          = .err (.runtimeError paren.line
              ("Expected " ++ toString c.arity ++ " arguments but found "
                ++ toString argVs.length ++ ".")) s2) := by
  refine ⟨?_, ?_, ?_⟩
  · intro e s1 h
    simp only [evalExpr, h]
  · intro a rest e s1 h
    simp only [evalArgs, h]
  · intro c s1 argVs s2 hc ha hne
    simp only [evalExpr, hc, ha]
    rw [if_pos hne]

/-- C7 witness: the three parts of the amended statement at concrete
inputs — an undefined callee, an undefined first argument, and the class
`K` (arity 0) called with one argument. -/
theorem c7_call_order_and_arity_witness :
    evalExpr 6 (initState []) (.call (.var (identTok "q" 1)) (parenTok 1) [])
      = .err (.runtimeError 1 "Undefined variable \x27q\x27") (initState [])
    ∧ evalArgs 6 (initState []) [.var (identTok "q" 1)]
      = .err (.runtimeError 1 "Undefined variable \x27q\x27") (initState [])
    ∧ evalExpr 6 stateWithK
        (.call (.var (identTok "K" 1)) (parenTok 1) [.literal (.num 1)])
      = .err (.runtimeError 1 "Expected 0 arguments but found 1.") stateWithK :=
  ⟨(c7_call_order_and_arity 5 (initState []) (.var (identTok "q" 1)) (parenTok 1) []).1
      (.runtimeError 1 "Undefined variable \x27q\x27") (initState []) rfl,
   (c7_call_order_and_arity 5 (initState []) (.var (identTok "q" 1)) (parenTok 1) []).2.1
      (.var (identTok "q" 1)) [] (.runtimeError 1 "Undefined variable \x27q\x27")
      (initState []) rfl,
   (c7_call_order_and_arity 5 stateWithK (.var (identTok "K" 1)) (parenTok 1)
      [.literal (.num 1)]).2.2 (.classC "K" []) stateWithK [.number 1] stateWithK
      rfl rfl (by decide)⟩

/-- C8 counterexample: `[10, 20][-1]` evaluates to the first element 10
instead of raising a RuntimeError — the `as usize` cast saturates the
negative index to 0. -/
theorem c8_negative_index_returns_first_element :
    evalExpr 10 (initState []) negativeIndexExpr = .ok (.number 10) (initState []) := rfl

/-- C8 (amended): indexing with a numeric index whose saturating
truncation is in range returns that element; one truncating out of range
raises the out-of-bounds RuntimeError; a non-numeric index raises the
must-be-a-number RuntimeError.  The cast saturates: every negative index
truncates to 0 (so it reads the first element of a nonempty array
instead of erring), and a nonnegative one is the floor capped at
usize::MAX. -/
theorem c8_index_checked_with_saturating_cast (fuel : Nat) (s s1 s2 : InterpState)
    (obj idxE : Expr) (elements : List LiteralType)
    (hobj : evalExpr fuel s obj = .ok (.array elements) s1) :
    (∀ n : Rat, evalExpr fuel s1 idxE = .ok (.number n) s2 →
        (∀ h : ratToUsize n < elements.length,
            evalExpr (fuel + 1) s (.index obj idxE)
              = .ok (elements.get ⟨ratToUsize n, h⟩) s2)
        ∧ (elements.length ≤ ratToUsize n →
            evalExpr (fuel + 1) s (.index obj idxE)
              = .err (.runtimeError 0 "Array index out of bounds.") s2)
        ∧ (n < 0 → ratToUsize n = 0)
        ∧ (0 ≤ n → ratToUsize n = min n.floor.toNat (2 ^ 64 - 1)))
    ∧ (∀ v, evalExpr fuel s1 idxE = .ok v s2 → (∀ m : Rat, v ≠ .number m) →
        evalExpr (fuel + 1) s (.index obj idxE)
          = .err (.runtimeError 0 "Array index must be a number.") s2) := by
  refine ⟨?_, ?_⟩
  · intro n hn
    refine ⟨?_, ?_, ?_, ?_⟩
    · intro h
      simp only [evalExpr, hobj, hn]
      rw [dif_pos h]
    · intro hle
      simp only [evalExpr, hobj, hn]
      rw [dif_neg (not_lt.mpr hle)]
    · intro hneg
      rw [ratToUsize, if_pos hneg]
    · intro hge
      rw [ratToUsize, if_neg (not_lt.mpr hge)]
  · intro v hv hnum
    cases v with
    | number m => exact absurd rfl (hnum m)
    | str s => simp only [evalExpr, hobj, hv]
    | bool b => simp only [evalExpr, hobj, hv]
    | array a => simp only [evalExpr, hobj, hv]
    | callable c => simp only [evalExpr, hobj, hv]
    | null => simp only [evalExpr, hobj, hv]

/-- C8 witness: the amended statement on the array `[10, 20]` with the
in-range index 1, the out-of-range index 5, the negative index -1 and
the string index "x". -/
theorem c8_index_witness :
    evalExpr 6 (initState [])
        (.index (.array [.literal (.num 10), .literal (.num 20)]) (.literal (.num 1)))
      = .ok (.number 20) (initState [])
    ∧ evalExpr 6 (initState [])
        (.index (.array [.literal (.num 10), .literal (.num 20)]) (.literal (.num 5)))
      = .err (.runtimeError 0 "Array index out of bounds.") (initState [])
    ∧ ratToUsize (-1) = 0
    ∧ evalExpr 6 (initState [])
        (.index (.array [.literal (.num 10), .literal (.num 20)])
          (.literal (.str "x")))
      = .err (.runtimeError 0 "Array index must be a number.") (initState []) :=
  ⟨(((c8_index_checked_with_saturating_cast 5 (initState []) (initState []) (initState [])
      (.array [.literal (.num 10), .literal (.num 20)]) (.literal (.num 1))
      [.number 10, .number 20] rfl).1 1 rfl).1 (by decide)),
   (((c8_index_checked_with_saturating_cast 5 (initState []) (initState []) (initState [])
      (.array [.literal (.num 10), .literal (.num 20)]) (.literal (.num 5))
      [.number 10, .number 20] rfl).1 5 rfl).2.1 (by decide)),
   (((c8_index_checked_with_saturating_cast 5 (initState []) (initState []) (initState [])
      (.array [.literal (.num 10), .literal (.num 20)])
      (.unary (minusTok 1) (.literal (.num 1)))
      [.number 10, .number 20] rfl).1 (-1) rfl).2.2.1 (by decide)),
   (((c8_index_checked_with_saturating_cast 5 (initState []) (initState []) (initState [])
      (.array [.literal (.num 10), .literal (.num 20)]) (.literal (.str "x"))
      [.number 10, .number 20] rfl).2 (.str "x") rfl
      (fun m h => LiteralType.noConfusion h)))⟩

/-- C9 counterexample: `var a = 1; var a = 2;` at the global scope is
accepted by the resolver — declare is a no-op on an empty scope stack —
and the program runs to completion with no error reported. -/
theorem c9_global_duplicate_accepted :
    RunOut.completedOk (runProgram 100 globalDuplicateProgram) = true
    ∧ RunOut.reportedOf (runProgram 100 globalDuplicateProgram) = some [] :=
  ⟨rfl, rfl⟩

/-- C9 (amended): inside a local (block or function) scope, declaring a
name already present in that exact scope is a static DuplicateDeclaration
resolver error — concretely, `{ var a = 1; var a = 2; }` is reported and
never executed — while a name present only in an enclosing scope is
declared fresh in the innermost scope (shadowing), and
`{ var a = 1; { var a = 2; } }` runs fine; at the global scope the stack
is empty and duplicates are accepted. -/
theorem c9_local_duplicate_rejected_shadowing_ok (r : ResolverState) (name : Token)
    (scope : List (String × Bool)) (hlast : r.scopes.getLast? = some scope) :
    (containsKey scope name.lexeme = true →
        declare r name = .error (.resolverError name
          "There\x27s already a variable with this name in this scope."))
    ∧ (containsKey scope name.lexeme = false →
        declare r name = .ok { r with
          scopes := r.scopes.dropLast ++ [insertAssoc scope name.lexeme false] })
    ∧ RunOut.staticReported (runProgram 100 blockDuplicateProgram)
        = some [.resolverError (identTok "a" 3)
            "There\x27s already a variable with this name in this scope."]
    ∧ RunOut.completedOk (runProgram 100 shadowProgram) = true := by
  refine ⟨?_, ?_, rfl, rfl⟩
  · intro hc
    simp only [declare, hlast]
    rw [if_pos hc]
  · intro hc
    simp only [declare, hlast]
    rw [if_neg (by rw [hc]; exact Bool.false_ne_true)]

/-- A resolver state whose innermost scope already holds `a`. -/
def dupScopeState : ResolverState :=
  { scopes := [[("a", true)]], currentFunction := .none, locals := [], reported := [] }

/-- A resolver state where `a` lives only in the outer scope. -/
def shadowScopeState : ResolverState :=
  { scopes := [[("a", true)], []], currentFunction := .none, locals := [], reported := [] }

/-- shadowScopeState after declaring `a` afresh in the innermost scope. -/
def shadowScopeStateAfter : ResolverState :=
  { scopes := [[("a", true)], [("a", false)]],
    currentFunction := .none, locals := [], reported := [] }

/-- C9 witness: the amended statement on a stack whose innermost scope
holds `a` (duplicate rejected) and on a stack where `a` lives only in an
outer scope (shadowing declared fresh). -/
theorem c9_declare_witness :
    declare dupScopeState (identTok "a" 9)
      = .error (.resolverError (identTok "a" 9)
          "There\x27s already a variable with this name in this scope.")
    ∧ declare shadowScopeState (identTok "a" 9) = .ok shadowScopeStateAfter :=
  ⟨(c9_local_duplicate_rejected_shadowing_ok dupScopeState
      (identTok "a" 9) [("a", true)] rfl).1 rfl,
   (c9_local_duplicate_rejected_shadowing_ok shadowScopeState
      (identTok "a" 9) [] rfl).2.1 rfl⟩

/-- C10: an in-bounds index assignment evaluates to the assigned value
and its final state is exactly the state the three subexpressions left
behind — no environment frame is written, because the element write
lands on the evaluated (cloned) copy of the array; variable reads never
change the state; and end to end, `var a = [10, 20]; print a[0] = 99;
print a[0];` prints 99 (the expression's value) then 10 (the unchanged
stored element). -/
theorem c10_assign_index_writes_only_a_copy (fuel : Nat) (s s1 s2 s3 : InterpState)
    (obj idxE valueE : Expr) (elements : List LiteralType) (n : Rat) (v : LiteralType)
    (hobj : evalExpr fuel s obj = .ok (.array elements) s1)
    (hidx : evalExpr fuel s1 idxE = .ok (.number n) s2)
    (hval : evalExpr fuel s2 valueE = .ok v s3)
    (hin : ratToUsize n < elements.length) :
    evalExpr (fuel + 1) s (.assignIndex obj idxE valueE) = .ok v s3
    ∧ (∀ fuel2 s4 tok v2 s5, evalExpr (fuel2 + 1) s4 (.var tok) = .ok v2 s5 → s5 = s4)
    ∧ RunOut.outputOf (runProgram 100 assignIndexProgram) = some ["99", "10"] := by
  refine ⟨?_, ?_, rfl⟩
  · simp only [evalExpr, hobj, hidx, hval]
    rw [if_pos hin]
  · intro fuel2 s4 tok v2 s5 h
    simp only [evalExpr] at h
    cases hl : lookupLocals s4.locals (.var tok) with
    | some d =>
        cases hg : getAt s4.frames s4.environment d tok.lexeme with
        | ok v3 => simp only [hl, hg, Res.ok.injEq] at h; exact h.2.symm
        | err e => simp only [hl, hg] at h; exact Res.noConfusion h
        | panicked m => simp only [hl, hg] at h; exact Res.noConfusion h
    | none =>
        cases hg : getDyn s4.frames 0 tok with
        | ok v3 => simp only [hl, hg, Res.ok.injEq] at h; exact h.2.symm
        | err e => simp only [hl, hg] at h; exact Res.noConfusion h
        | panicked m => simp only [hl, hg] at h; exact Res.noConfusion h

/-- C10 witness: the concrete in-bounds assignment `[10, 20][0] = 99`
evaluates to 99 and leaves the state untouched. -/
theorem c10_assign_index_witness :
    evalExpr 6 (initState [])
        (.assignIndex (.array [.literal (.num 10), .literal (.num 20)])
          (.literal (.num 0)) (.literal (.num 99)))
      = .ok (.number 99) (initState []) :=
  (c10_assign_index_writes_only_a_copy 5 (initState []) (initState []) (initState [])
    (initState []) (.array [.literal (.num 10), .literal (.num 20)])
    (.literal (.num 0)) (.literal (.num 99)) [.number 10, .number 20] 0 (.number 99)
    rfl rfl rfl (by decide)).1

end Jasn
